import Mathlib

/-!
Shallow embedding of `server.js` (iot-cloud-server): the connection
registries, shared device-state store, device registry, the WebSocket
connection/message/close handlers, and the HTTP control endpoint.

Connections are modelled by natural-number handles; whether a handle's
transport is open is an external predicate `isOpen` passed to each
operation (the code checks `readyState === WebSocket.OPEN` before every
send).  Timestamps (`new Date().toISOString()`) are modelled as an
externally supplied string `now` for each handler invocation.  JS objects
and Maps are modelled as association lists in insertion order, which is
the iteration order JS guarantees.
-/

namespace IotServer

/-- A WebSocket connection handle. -/
abbrev ConnId := Nat

/-- A JSON-ish value stored in `deviceStates` or sent as a command value. -/
inductive Val where
  | num (q : ℚ)
  | bool (b : Bool)
  | str (s : String)
deriving DecidableEq, Repr

/-- One entry of `registeredDevices` (src/server.js lines 38-55). -/
structure DeviceRecord where
  id : String
  name : String
  type : String
  location : String
  online : Bool
  lastSeen : Option String
deriving DecidableEq, Repr

/-- Frames the server sends over WebSocket connections. -/
inductive Frame where
  | config (message : String) (deviceId : String)
  | command (command : String) (value : Val) (timestamp : String)
  | initialData (devices : List DeviceRecord) (sensors : List (String × Val)) (timestamp : String)
  | sensorUpdate (deviceId : String) (data : List (String × Val)) (timestamp : String)
  | stateUpdate (deviceId : String) (command : String) (value : Val) (timestamp : String)
  | deviceDisconnected (deviceId : String) (timestamp : String)
deriving DecidableEq, Repr

/-- An observable output action of a handler: a `ws.send` or a `ws.close`. -/
inductive OutAction where
  | send (c : ConnId) (f : Frame)
  | close (c : ConnId) (code : Nat) (reason : String)
deriving DecidableEq, Repr

/-- Does the association list have the key (JS `hasOwnProperty` / `Map.has`)? -/
def hasKey {α : Type} (m : List (String × α)) (k : String) : Bool :=
  m.any (fun p => p.1 = k)

/-- Look up a key (JS property access / `Map.get`), first entry wins. -/
def lookupKey {α : Type} (m : List (String × α)) (k : String) : Option α :=
  (m.find? (fun p => p.1 = k)).map (fun p => p.2)

/-- JS assignment `m[k] = v` / `Map.set`: overwrite in place if the key is
present, otherwise append at the end (JS preserves insertion order). -/
def setKey {α : Type} : List (String × α) → String → α → List (String × α)
  | [], k, v => [(k, v)]
  | p :: rest, k, v => if p.1 = k then (k, v) :: rest else p :: setKey rest k v

/-- JS `Map.delete`. -/
def removeKey {α : Type} (m : List (String × α)) (k : String) : List (String × α) :=
  m.filter (fun p => decide (p.1 ≠ k))

/-- The whole mutable server state: the two connection registries, the
shared device-state snapshot and the device registry. -/
structure ServerState where
  iotDevices : List (String × ConnId)
  webClients : List (String × ConnId)
  deviceStates : List (String × Val)
  registeredDevices : List DeviceRecord
deriving DecidableEq, Repr

/-- Initial `deviceStates` (src/server.js lines 27-35); `t0` is the
startup timestamp. -/
def initialDeviceStates (t0 : String) : List (String × Val) :=
  [("temperature", Val.num (49/2)), ("humidity", Val.num 68), ("led", Val.bool false),
   ("pump", Val.bool false), ("fanSpeed", Val.num 45), ("power", Val.num 156),
   ("lastUpdate", Val.str t0)]

/-- Initial `registeredDevices` (src/server.js lines 38-55). -/
def initialRegisteredDevices : List DeviceRecord :=
  [{ id := "device_001", name := "Kitchen Sensor", type := "sensor",
     location := "Kitchen", online := false, lastSeen := none },
   { id := "device_002", name := "LED Controller", type := "actuator",
     location := "Living Room", online := false, lastSeen := none }]

/-- Server state at process start. -/
def initialState (t0 : String) : ServerState :=
  { iotDevices := [], webClients := [],
    deviceStates := initialDeviceStates t0,
    registeredDevices := initialRegisteredDevices }

/-- `registeredDevices.find(d => d.id === deviceId)` followed by mutating
the found record: update the first record with the given id. -/
def updateFirst (devs : List DeviceRecord) (did : String) (f : DeviceRecord → DeviceRecord) :
    List DeviceRecord :=
  match devs with
  | [] => []
  | d :: rest => if d.id = did then f d :: rest else d :: updateFirst rest did f

/-- `device.online = true; device.lastSeen = now` on connect (lines 136-140). -/
def markOnline (devs : List DeviceRecord) (did : String) (now : String) : List DeviceRecord :=
  updateFirst devs did (fun d => { d with online := true, lastSeen := some now })

/-- `device.online = false; device.lastSeen = now` on close (lines 177-181). -/
def markOffline (devs : List DeviceRecord) (did : String) (now : String) : List DeviceRecord :=
  updateFirst devs did (fun d => { d with online := false, lastSeen := some now })

/-- `registeredDevices.find(d => d.id === deviceId)`. -/
def findDevice (devs : List DeviceRecord) (did : String) : Option DeviceRecord :=
  devs.find? (fun d => decide (d.id = did))

/-- `broadcastToWebClients` (src/server.js lines 217-223): send the frame
to every dashboard client whose connection is currently open. -/
def broadcastToWebClients (webClients : List (String × ConnId)) (isOpen : ConnId → Bool)
    (f : Frame) : List OutAction :=
  (webClients.filter (fun p => isOpen p.2)).map (fun p => OutAction.send p.2 f)

/-- Result of the control endpoint (success body or 404 body). -/
inductive ControlResult where
  | success (message : String) (command : String) (value : Val)
  | notConnected (error : String)
deriving DecidableEq, Repr

/-- `POST /api/devices/:deviceId/control` (src/server.js lines 76-122):
look up the device connection; if present and open, send it a command
frame, overwrite `deviceStates[command]` when that key exists, broadcast a
`stateUpdate` to web clients and answer success; otherwise answer 404. -/
def controlHandler (st : ServerState) (isOpen : ConnId → Bool)
    (deviceId command : String) (value : Val) (now : String) :
    ServerState × List OutAction × ControlResult :=
  match lookupKey st.iotDevices deviceId with
  | some ws =>
    if isOpen ws then
      let newStates :=
        if hasKey st.deviceStates command then setKey st.deviceStates command value
        else st.deviceStates
      ({ st with deviceStates := newStates },
       OutAction.send ws (Frame.command command value now) ::
         broadcastToWebClients st.webClients isOpen
           (Frame.stateUpdate deviceId command value now),
       ControlResult.success ("Command sent to " ++ deviceId) command value)
    else
      (st, [], ControlResult.notConnected ("Device " ++ deviceId ++ " is not connected"))
  | none =>
      (st, [], ControlResult.notConnected ("Device " ++ deviceId ++ " is not connected"))

/-- JS truthiness of a string query parameter: `null` and `""` are falsy. -/
def truthyParam : Option String → Bool
  | none => false
  | some s => decide (s ≠ "")

/-- `wss.on('connection')` classification (src/server.js lines 125-214):
a device connection (type=device with a truthy deviceId) is registered in
`iotDevices`, marked online and sent a config frame; a web connection is
registered in `webClients` under a fresh ephemeral id and sent the
initial-data frame; anything else is closed with code 1008. -/
def connectionHandler (st : ServerState) (clientType deviceIdParam : Option String)
    (ws : ConnId) (clientId : String) (now : String) :
    ServerState × List OutAction :=
  if clientType = some "device" ∧ truthyParam deviceIdParam = true then
    let deviceId := deviceIdParam.getD ""
    ({ st with iotDevices := setKey st.iotDevices deviceId ws,
               registeredDevices := markOnline st.registeredDevices deviceId now },
     [OutAction.send ws (Frame.config "Connected to cloud server" deviceId)])
  else if clientType = some "web" then
    ({ st with webClients := setKey st.webClients clientId ws },
     [OutAction.send ws (Frame.initialData st.registeredDevices st.deviceStates now)])
  else
    (st, [OutAction.close ws 1008 "Invalid client type"])

/-- An inbound device frame after the `JSON.parse` attempt: either the
parse threw, or it yielded an object with an optional `type` tag and a
`data` field mapping (absent `data` modelled as the empty mapping, which
is what `Object.assign` does with it). -/
inductive InboundMsg where
  | parseFailure
  | parsed (tag : Option String) (data : List (String × Val))
deriving DecidableEq, Repr

/-- `Object.assign(deviceStates, fields)`: apply each key/value in order,
overwriting or inserting. -/
def objAssign (m fields : List (String × Val)) : List (String × Val) :=
  fields.foldl (fun acc p => setKey acc p.1 p.2) m

/-- One `sensorData` merge (src/server.js lines 156-157): assign the
fields into `deviceStates`, then refresh `lastUpdate`. -/
def mergeStep (m : List (String × Val)) (fields : List (String × Val)) (t : String) :
    List (String × Val) :=
  setKey (objAssign m fields) "lastUpdate" (Val.str t)

/-- `ws.on('message')` for a device connection (src/server.js lines
149-170): a parse failure is logged and ignored; a parsed frame tagged
`sensorData` merges its data into `deviceStates`, refreshes `lastUpdate`
and broadcasts a `sensorUpdate`; any other tag does nothing. -/
def deviceMessageHandler (st : ServerState) (isOpen : ConnId → Bool)
    (deviceId : String) (msg : InboundMsg) (now : String) :
    ServerState × List OutAction :=
  match msg with
  | .parseFailure => (st, [])
  | .parsed tag data =>
    if tag = some "sensorData" then
      ({ st with deviceStates := mergeStep st.deviceStates data now },
       broadcastToWebClients st.webClients isOpen (Frame.sensorUpdate deviceId data now))
    else (st, [])

/-- `ws.on('close')` for a device connection (src/server.js lines
172-189): unregister, mark offline, broadcast `deviceDisconnected`. -/
def deviceCloseHandler (st : ServerState) (isOpen : ConnId → Bool)
    (deviceId : String) (now : String) :
    ServerState × List OutAction :=
  let st1 := { st with iotDevices := removeKey st.iotDevices deviceId,
                       registeredDevices := markOffline st.registeredDevices deviceId now }
  (st1, broadcastToWebClients st1.webClients isOpen (Frame.deviceDisconnected deviceId now))

/-- `ws.on('close')` for a web client (src/server.js lines 205-208). -/
def webCloseHandler (st : ServerState) (clientId : String) : ServerState :=
  { st with webClients := removeKey st.webClients clientId }

/-- The value most recently assigned to `k` by the concatenated field
lists of a merge history (last occurrence wins, as in `Object.assign`). -/
def lastAssigned (fields : List (String × Val)) (k : String) : Option Val :=
  (fields.reverse.find? (fun p => p.1 = k)).map (fun p => p.2)

/-- A whole sequence of `sensorData` merges applied in order. -/
def applyMerges (m : List (String × Val)) (merges : List (List (String × Val) × String)) :
    List (String × Val) :=
  merges.foldl (fun acc p => mergeStep acc p.1 p.2) m

/-- Is this output action the push of a command frame to some connection? -/
def isCommandSend : OutAction → Bool
  | OutAction.send _ (Frame.command _ _ _) => true
  | _ => false

/-! ### Association-list lemmas -/

theorem lookupKey_nil {α : Type} (k : String) : lookupKey ([] : List (String × α)) k = none :=
  rfl

theorem lookupKey_cons {α : Type} (p : String × α) (rest : List (String × α)) (k : String) :
    lookupKey (p :: rest) k = if p.1 = k then some p.2 else lookupKey rest k := by
  by_cases h : p.1 = k <;> simp [lookupKey, List.find?, h]

theorem hasKey_nil {α : Type} (k : String) : hasKey ([] : List (String × α)) k = false :=
  rfl

theorem hasKey_cons {α : Type} (p : String × α) (rest : List (String × α)) (k : String) :
    hasKey (p :: rest) k = (decide (p.1 = k) || hasKey rest k) := by
  simp [hasKey]

theorem setKey_nil {α : Type} (k : String) (v : α) :
    setKey ([] : List (String × α)) k v = [(k, v)] := rfl

theorem setKey_cons {α : Type} (p : String × α) (rest : List (String × α)) (k : String) (v : α) :
    setKey (p :: rest) k v = if p.1 = k then (k, v) :: rest else p :: setKey rest k v := rfl

theorem lookupKey_setKey_self {α : Type} (m : List (String × α)) (k : String) (v : α) :
    lookupKey (setKey m k v) k = some v := by
  induction m with
  | nil => simp [setKey_nil, lookupKey_cons, lookupKey_nil]
  | cons p rest ih =>
    rw [setKey_cons]
    by_cases h : p.1 = k
    · rw [if_pos h, lookupKey_cons, if_pos rfl]
    · rw [if_neg h, lookupKey_cons, if_neg h, ih]

theorem lookupKey_setKey_ne {α : Type} (m : List (String × α)) (k k' : String) (v : α)
    (h : k' ≠ k) : lookupKey (setKey m k v) k' = lookupKey m k' := by
  induction m with
  | nil =>
    have hkv : ¬ ((k, v) : String × α).1 = k' := fun e => h (Eq.symm e)
    rw [setKey_nil, lookupKey_cons, if_neg hkv]
  | cons p rest ih =>
    rw [setKey_cons]
    by_cases hp : p.1 = k
    · have hpk : ¬ p.1 = k' := fun e => h (e ▸ hp)
      have hkv : ¬ ((k, v) : String × α).1 = k' := fun e => h (Eq.symm e)
      rw [if_pos hp, lookupKey_cons, lookupKey_cons, if_neg hpk, if_neg hkv]
    · rw [if_neg hp, lookupKey_cons, lookupKey_cons, ih]

theorem hasKey_setKey {α : Type} (m : List (String × α)) (k k' : String) (v : α) :
    hasKey (setKey m k v) k' = (hasKey m k' || decide (k' = k)) := by
  induction m with
  | nil =>
    by_cases h : k' = k
    · simp [setKey_nil, hasKey_cons, hasKey_nil, h]
    · have hs : ¬ k = k' := fun e => h (Eq.symm e)
      simp [setKey_nil, hasKey_cons, hasKey_nil, h, hs]
  | cons p rest ih =>
    rw [setKey_cons]
    by_cases hp : p.1 = k
    · by_cases h : k' = k
      · simp [if_pos hp, hasKey_cons, h]
      · simp [if_pos hp, hasKey_cons, h, fun e => h (Eq.symm e), hp]
    · rw [if_neg hp, hasKey_cons, hasKey_cons, ih, Bool.or_assoc]

theorem hasKey_iff_mem_keys {α : Type} (m : List (String × α)) (k : String) :
    hasKey m k = true ↔ k ∈ m.map Prod.fst := by
  induction m with
  | nil => simp [hasKey_nil]
  | cons p rest ih =>
    rw [hasKey_cons]
    simp only [List.map_cons, List.mem_cons, Bool.or_eq_true, decide_eq_true_eq, ih]
    constructor
    · rintro (h | h)
      · exact Or.inl h.symm
      · exact Or.inr h
    · rintro (h | h)
      · exact Or.inl h.symm
      · exact Or.inr h

theorem keysNodup_setKey {α : Type} (m : List (String × α)) (k : String) (v : α)
    (h : (m.map Prod.fst).Nodup) : ((setKey m k v).map Prod.fst).Nodup := by
  induction m with
  | nil => simp [setKey]
  | cons p rest ih =>
    by_cases hp : p.1 = k
    · simpa [setKey, hp] using h
    · simp only [List.map_cons, List.nodup_cons] at h
      simp only [setKey, if_neg hp, List.map_cons, List.nodup_cons]
      refine ⟨?_, ih h.2⟩
      intro hmem
      have hk := (hasKey_iff_mem_keys (setKey rest k v) p.1).mpr hmem
      rw [hasKey_setKey] at hk
      rcases Bool.or_eq_true_iff.mp hk with h1 | h1
      · exact h.1 ((hasKey_iff_mem_keys rest p.1).mp h1)
      · exact hp (of_decide_eq_true h1)

/-! ### `Object.assign` / merge lemmas -/

theorem lastAssigned_nil (k : String) : lastAssigned [] k = none := rfl

theorem lastAssigned_cons (p : String × Val) (fs : List (String × Val)) (k : String) :
    lastAssigned (p :: fs) k =
      (lastAssigned fs k).or (if p.1 = k then some p.2 else none) := by
  unfold lastAssigned
  rw [List.reverse_cons, List.find?_append]
  by_cases h : p.1 = k <;>
    cases hf : fs.reverse.find? (fun q => decide (q.1 = k)) <;>
      simp [hf, List.find?, h, Option.or]

theorem lastAssigned_append (l1 l2 : List (String × Val)) (k : String) :
    lastAssigned (l1 ++ l2) k = (lastAssigned l2 k).or (lastAssigned l1 k) := by
  unfold lastAssigned
  rw [List.reverse_append, List.find?_append]
  cases hf : l2.reverse.find? (fun q => decide (q.1 = k)) <;> simp [hf, Option.or]

theorem objAssign_nil (m : List (String × Val)) : objAssign m [] = m := rfl

theorem objAssign_cons (m : List (String × Val)) (p : String × Val)
    (fs : List (String × Val)) : objAssign m (p :: fs) = objAssign (setKey m p.1 p.2) fs := rfl

theorem lookupKey_objAssign (m fs : List (String × Val)) (k : String) :
    lookupKey (objAssign m fs) k = (lastAssigned fs k).or (lookupKey m k) := by
  induction fs generalizing m with
  | nil => rfl
  | cons p fs ih =>
    obtain ⟨k1, v1⟩ := p
    rw [objAssign_cons, ih, lastAssigned_cons]
    by_cases h : k1 = k
    · subst h
      cases hl : lastAssigned fs k1 with
      | some v => simp [Option.or]
      | none => simp [Option.or, lookupKey_setKey_self]
    · rw [lookupKey_setKey_ne m k1 k v1 (Ne.symm h)]
      simp [h, Option.or_none]

theorem hasKey_objAssign (m fs : List (String × Val)) (k : String) :
    hasKey (objAssign m fs) k = (hasKey m k || fs.any (fun p => p.1 = k)) := by
  induction fs generalizing m with
  | nil => simp [objAssign_nil]
  | cons p fs ih =>
    rw [objAssign_cons, ih, hasKey_setKey, List.any_cons, Bool.or_assoc,
      decide_eq_decide.mpr (eq_comm (a := k) (b := p.1))]

theorem applyMerges_nil (m : List (String × Val)) : applyMerges m [] = m := rfl

theorem applyMerges_cons (m : List (String × Val)) (a : List (String × Val) × String)
    (ms : List (List (String × Val) × String)) :
    applyMerges m (a :: ms) = applyMerges (mergeStep m a.1 a.2) ms := rfl

theorem lookupKey_mergeStep_lastUpdate (m fs : List (String × Val)) (t : String) :
    lookupKey (mergeStep m fs t) "lastUpdate" = some (Val.str t) :=
  lookupKey_setKey_self _ _ _

theorem lookupKey_mergeStep_ne (m fs : List (String × Val)) (t : String) (k : String)
    (h : k ≠ "lastUpdate") :
    lookupKey (mergeStep m fs t) k = (lastAssigned fs k).or (lookupKey m k) := by
  rw [mergeStep, lookupKey_setKey_ne _ _ _ _ h, lookupKey_objAssign]

theorem hasKey_mergeStep (m fs : List (String × Val)) (t : String) (k : String) :
    hasKey (mergeStep m fs t) k
      = (hasKey m k || fs.any (fun p => p.1 = k) || decide (k = "lastUpdate")) := by
  rw [mergeStep, hasKey_setKey, hasKey_objAssign]

theorem hasKey_applyMerges (m : List (String × Val))
    (merges : List (List (String × Val) × String)) (k : String)
    (hlu : hasKey m "lastUpdate" = true) :
    hasKey (applyMerges m merges) k
      = (hasKey m k || (merges.flatMap (fun p => p.1)).any (fun p => p.1 = k)) := by
  induction merges generalizing m with
  | nil => simp [applyMerges_nil]
  | cons a ms ih =>
    have hlu2 : hasKey (mergeStep m a.1 a.2) "lastUpdate" = true := by
      rw [hasKey_mergeStep]; simp
    rw [applyMerges_cons, ih _ hlu2, hasKey_mergeStep, List.flatMap_cons, List.any_append]
    by_cases hk : k = "lastUpdate"
    · subst hk; simp [hlu]
    · simp [hk, Bool.or_assoc]

theorem lookupKey_applyMerges_ne (m : List (String × Val))
    (merges : List (List (String × Val) × String)) (k : String) (h : k ≠ "lastUpdate") :
    lookupKey (applyMerges m merges) k
      = (lastAssigned (merges.flatMap (fun p => p.1)) k).or (lookupKey m k) := by
  induction merges generalizing m with
  | nil => rfl
  | cons a ms ih =>
    rw [applyMerges_cons, ih, lookupKey_mergeStep_ne _ _ _ _ h, List.flatMap_cons,
      lastAssigned_append, Option.or_assoc]

theorem lookupKey_applyMerges_lastUpdate (m : List (String × Val))
    (merges : List (List (String × Val) × String)) (h : merges ≠ []) :
    lookupKey (applyMerges m merges) "lastUpdate" = some (Val.str (merges.getLast h).2) := by
  induction merges generalizing m with
  | nil => exact absurd rfl h
  | cons a ms ih =>
    cases ms with
    | nil =>
      rw [applyMerges_cons, applyMerges_nil, lookupKey_mergeStep_lastUpdate,
        List.getLast_singleton]
    | cons b ms2 =>
      rw [applyMerges_cons, ih (mergeStep m a.1 a.2) (List.cons_ne_nil b ms2),
        List.getLast_cons (List.cons_ne_nil b ms2)]

/-! ### Broadcast lemmas -/

theorem broadcast_count (wc : List (String × ConnId)) (isOpen : ConnId → Bool) (f : Frame)
    (cid : String) (c : ConnId) (hnodup : (wc.map Prod.snd).Nodup)
    (hmem : (cid, c) ∈ wc) (hopen : isOpen c = true) :
    (broadcastToWebClients wc isOpen f).count (OutAction.send c f) = 1 := by
  have h1 : (broadcastToWebClients wc isOpen f).count (OutAction.send c f)
      = wc.countP (fun p => decide (p.2 = c) && isOpen p.2) := by
    rw [broadcastToWebClients, List.count, List.countP_map, List.countP_filter]
    refine List.countP_congr (fun p _ => ?_)
    by_cases hpc : p.2 = c <;> simp [hpc, beq_iff_eq]
  have h2 : wc.countP (fun p => decide (p.2 = c) && isOpen p.2)
      = wc.countP (fun p => decide (p.2 = c)) := by
    refine List.countP_congr (fun p _ => ?_)
    by_cases hpc : p.2 = c <;> simp [hpc, hopen]
  have h3 : wc.countP (fun p => decide (p.2 = c)) = (wc.map Prod.snd).count c := by
    rw [List.count, List.countP_map]
    refine List.countP_congr (fun p _ => ?_)
    simp [beq_iff_eq]
  rw [h1, h2, h3]
  exact List.count_eq_one_of_mem hnodup (List.mem_map.mpr ⟨(cid, c), hmem, rfl⟩)

theorem broadcast_mem (wc : List (String × ConnId)) (isOpen : ConnId → Bool) (f : Frame)
    (cid : String) (c : ConnId) (hmem : (cid, c) ∈ wc) (hopen : isOpen c = true) :
    OutAction.send c f ∈ broadcastToWebClients wc isOpen f :=
  List.mem_map.mpr ⟨(cid, c), List.mem_filter.mpr ⟨hmem, hopen⟩, rfl⟩

theorem broadcast_not_sent_closed (wc : List (String × ConnId)) (isOpen : ConnId → Bool)
    (f f2 : Frame) (c : ConnId) (hclosed : isOpen c = false) :
    OutAction.send c f2 ∉ broadcastToWebClients wc isOpen f := by
  intro hmem
  rcases List.mem_map.mp hmem with ⟨p, hp, heq⟩
  rcases List.mem_filter.mp hp with ⟨_, hopen⟩
  injection heq with hc hf
  rw [hc, hclosed] at hopen
  exact Bool.false_ne_true hopen

theorem broadcast_frames (wc : List (String × ConnId)) (isOpen : ConnId → Bool) (f : Frame)
    (a : OutAction) (hmem : a ∈ broadcastToWebClients wc isOpen f) :
    ∃ c, a = OutAction.send c f := by
  rcases List.mem_map.mp hmem with ⟨p, _, heq⟩
  exact ⟨p.2, heq.symm⟩

/-! ### Device-registry lemmas -/

theorem findDevice_nil (did : String) : findDevice [] did = none := rfl

theorem findDevice_cons (d : DeviceRecord) (rest : List DeviceRecord) (did : String) :
    findDevice (d :: rest) did = if d.id = did then some d else findDevice rest did := by
  by_cases h : d.id = did <;> simp [findDevice, List.find?, h]

theorem findDevice_updateFirst (devs : List DeviceRecord) (did : String)
    (f : DeviceRecord → DeviceRecord) (hf : ∀ d, (f d).id = d.id) :
    findDevice (updateFirst devs did f) did = (findDevice devs did).map f := by
  induction devs with
  | nil => rfl
  | cons d rest ih =>
    rw [updateFirst]
    by_cases h : d.id = did
    · rw [if_pos h, findDevice_cons, findDevice_cons, if_pos ((hf d).trans h), if_pos h]
      rfl
    · rw [if_neg h, findDevice_cons, findDevice_cons, if_neg h, if_neg h, ih]

theorem updateFirst_no_match (devs : List DeviceRecord) (did : String)
    (f : DeviceRecord → DeviceRecord) (h : findDevice devs did = none) :
    updateFirst devs did f = devs := by
  induction devs with
  | nil => rfl
  | cons d rest ih =>
    rw [findDevice_cons] at h
    by_cases hd : d.id = did
    · rw [if_pos hd] at h; exact absurd h (by simp)
    · rw [if_neg hd] at h
      rw [updateFirst, if_neg hd, ih h]

/-! ### Claim theorems -/

/-- Claim C2: `issueCommand` on a device identity with no registered live
connection, or whose registered connection is not open, fails with the
device-not-connected error and leaves the whole server state unchanged,
sending no frame to anyone. -/
theorem issueCommand_notConnected (st : ServerState) (isOpen : ConnId → Bool)
    (d cmd : String) (v : Val) (now : String)
    (h : ∀ ws, lookupKey st.iotDevices d = some ws → isOpen ws = false) :
    controlHandler st isOpen d cmd v now
      = (st, [], ControlResult.notConnected ("Device " ++ d ++ " is not connected")) := by
  cases hws : lookupKey st.iotDevices d with
  | none => simp [controlHandler, hws]
  | some ws => simp [controlHandler, hws, h ws hws]

/-- Witness for C2 at a concrete state: no device registered at all. -/
theorem issueCommand_notConnected_witness :
    (∀ ws, lookupKey (initialState "t0").iotDevices "device_001" = some ws
        → (fun _ => true : ConnId → Bool) ws = false)
    ∧ controlHandler (initialState "t0") (fun _ => true) "device_001" "led"
        (Val.bool true) "t1"
      = (initialState "t0", [],
         ControlResult.notConnected "Device device_001 is not connected") :=
  ⟨fun ws hws => by simp [initialState, lookupKey] at hws,
   issueCommand_notConnected (initialState "t0") (fun _ => true) "device_001" "led"
     (Val.bool true) "t1" (fun ws hws => by simp [initialState, lookupKey] at hws)⟩

/-- Claim C9: an inbound device frame that fails to parse is ignored: the
server state (both connection registries, the shared state store and the
device registry) is unchanged and no output action — neither a send nor a
close — is produced. -/
theorem malformed_frame_ignored (st : ServerState) (isOpen : ConnId → Bool)
    (d now : String) :
    deviceMessageHandler st isOpen d InboundMsg.parseFailure now = (st, []) := rfl

/-- Claim C10: a parsed inbound device frame whose tag is anything other
than `sensorData` (including a missing `type` field) is silently dropped:
state unchanged, nothing broadcast. -/
theorem unknown_tag_dropped (st : ServerState) (isOpen : ConnId → Bool)
    (d now : String) (tag : Option String) (fields : List (String × Val))
    (h : tag ≠ some "sensorData") :
    deviceMessageHandler st isOpen d (InboundMsg.parsed tag fields) now = (st, []) := by
  simp [deviceMessageHandler, h]

/-- Witness for C10: a frame with no `type` field at all. -/
theorem unknown_tag_dropped_witness :
    ((none : Option String) ≠ some "sensorData")
    ∧ deviceMessageHandler (initialState "t0") (fun _ => true) "device_001"
        (InboundMsg.parsed none [("temperature", Val.num 30)]) "t1"
      = (initialState "t0", []) :=
  ⟨by simp,
   unknown_tag_dropped (initialState "t0") (fun _ => true) "device_001" "t1" none
     [("temperature", Val.num 30)] (by simp)⟩

/-- Claim C7: a connection whose role parameter is absent or unrecognized,
or whose role is `device` without an identifier, is closed immediately
with policy-violation code 1008 and its reason string, and no entry is
inserted into either connection-registry mapping (the state is returned
unchanged). -/
theorem invalid_role_rejected (st : ServerState) (ct did : Option String) (ws : ConnId)
    (cid now : String)
    (h : (ct = some "device" ∧ did = none) ∨ (ct ≠ some "device" ∧ ct ≠ some "web")) :
    connectionHandler st ct did ws cid now
      = (st, [OutAction.close ws 1008 "Invalid client type"]) := by
  rcases h with ⟨h1, h2⟩ | ⟨h1, h2⟩
  · subst h1; subst h2
    simp [connectionHandler, truthyParam]
  · simp [connectionHandler, h1, h2]

/-- Witness for C7: a connection with no role parameter at all. -/
theorem invalid_role_rejected_witness :
    (((none : Option String) = some "device" ∧ (none : Option String) = none)
      ∨ ((none : Option String) ≠ some "device" ∧ (none : Option String) ≠ some "web"))
    ∧ connectionHandler (initialState "t0") none none 9 "c1" "t1"
      = (initialState "t0", [OutAction.close 9 1008 "Invalid client type"]) :=
  ⟨Or.inr ⟨by simp, by simp⟩,
   invalid_role_rejected (initialState "t0") none none 9 "c1" "t1"
     (Or.inr ⟨by simp, by simp⟩)⟩

/-- Claim C1: `issueCommand(deviceId, "led", true)` on a connected device
whose connection is open sends exactly one command frame
`{type:"command", command:"led", value:true, timestamp}` to that device's
connection, sets the shared-state field `led` to `true`, sends exactly one
`stateUpdate` frame with the same deviceId/command/value to every
currently-open dashboard connection, and returns success echoing the
command and value. -/
theorem issueCommand_connected_led (st : ServerState) (isOpen : ConnId → Bool)
    (d now : String) (ws : ConnId)
    (hconn : lookupKey st.iotDevices d = some ws) (hopen : isOpen ws = true)
    (hled : hasKey st.deviceStates "led" = true)
    (hnodup : (st.webClients.map Prod.snd).Nodup) :
    ((controlHandler st isOpen d "led" (Val.bool true) now).2.1).count
        (OutAction.send ws (Frame.command "led" (Val.bool true) now)) = 1
    ∧ lookupKey (controlHandler st isOpen d "led" (Val.bool true) now).1.deviceStates "led"
        = some (Val.bool true)
    ∧ (∀ cid c, (cid, c) ∈ st.webClients → isOpen c = true →
        ((controlHandler st isOpen d "led" (Val.bool true) now).2.1).count
          (OutAction.send c (Frame.stateUpdate d "led" (Val.bool true) now)) = 1)
    ∧ (controlHandler st isOpen d "led" (Val.bool true) now).2.2
        = ControlResult.success ("Command sent to " ++ d) "led" (Val.bool true) := by
  have hctl : controlHandler st isOpen d "led" (Val.bool true) now
      = ({ st with deviceStates := setKey st.deviceStates "led" (Val.bool true) },
         OutAction.send ws (Frame.command "led" (Val.bool true) now) ::
           broadcastToWebClients st.webClients isOpen
             (Frame.stateUpdate d "led" (Val.bool true) now),
         ControlResult.success ("Command sent to " ++ d) "led" (Val.bool true)) := by
    simp [controlHandler, hconn, hopen, hled]
  rw [hctl]
  refine ⟨?_, ?_, ?_, ?_⟩
  · rw [List.count_cons_self, List.count_eq_zero.mpr ?_]
    intro hmem
    rcases broadcast_frames _ _ _ _ hmem with ⟨c, heq⟩
    injection heq with hc hf
    exact Frame.noConfusion hf
  · exact lookupKey_setKey_self _ _ _
  · intro cid c hmem hopenc
    rw [List.count_cons_of_ne ?_, broadcast_count st.webClients isOpen _ cid c hnodup hmem hopenc]
    intro heq
    injection heq with hc hf
    exact Frame.noConfusion hf
  · rfl

/-- Witness for C1: one connected open device, one open dashboard. -/
theorem issueCommand_connected_led_witness :
    lookupKey [("device_001", (5 : ConnId))] "device_001" = some 5
    ∧ (fun _ => true : ConnId → Bool) 5 = true
    ∧ hasKey (initialDeviceStates "t0") "led" = true
    ∧ ((([("webA", (7 : ConnId))] : List (String × ConnId)).map Prod.snd).Nodup)
    ∧ ((controlHandler
          { iotDevices := [("device_001", 5)], webClients := [("webA", 7)],
            deviceStates := initialDeviceStates "t0",
            registeredDevices := initialRegisteredDevices }
          (fun _ => true) "device_001" "led" (Val.bool true) "t1").2.1).count
        (OutAction.send 5 (Frame.command "led" (Val.bool true) "t1")) = 1 :=
  ⟨by rfl, rfl, by rfl, by simp,
   (issueCommand_connected_led
     { iotDevices := [("device_001", 5)], webClients := [("webA", 7)],
       deviceStates := initialDeviceStates "t0",
       registeredDevices := initialRegisteredDevices }
     (fun _ => true) "device_001" "t1" 5 (by rfl) rfl (by rfl) (by simp)).1⟩

/-- Claim C4: an inbound `{type:"sensorData", data:{temperature:30}}`
frame from a device sets the snapshot's `temperature` field to 30, leaves
every other telemetry field (every key other than `temperature` and the
`lastUpdate` timestamp) unchanged, sends exactly one `sensorUpdate` frame
carrying the device identity, the merged data and the timestamp to each
currently-open dashboard connection, and sends nothing to closed ones. -/
theorem sensorData_temperature_update (st : ServerState) (isOpen : ConnId → Bool)
    (d now : String) (hnodup : (st.webClients.map Prod.snd).Nodup) :
    lookupKey (deviceMessageHandler st isOpen d
        (InboundMsg.parsed (some "sensorData") [("temperature", Val.num 30)]) now).1.deviceStates
        "temperature" = some (Val.num 30)
    ∧ (∀ k, k ≠ "temperature" → k ≠ "lastUpdate" →
        lookupKey (deviceMessageHandler st isOpen d
            (InboundMsg.parsed (some "sensorData") [("temperature", Val.num 30)]) now).1.deviceStates k
          = lookupKey st.deviceStates k)
    ∧ (∀ cid c, (cid, c) ∈ st.webClients → isOpen c = true →
        ((deviceMessageHandler st isOpen d
            (InboundMsg.parsed (some "sensorData") [("temperature", Val.num 30)]) now).2).count
          (OutAction.send c (Frame.sensorUpdate d [("temperature", Val.num 30)] now)) = 1)
    ∧ (∀ cid c, (cid, c) ∈ st.webClients → isOpen c = false →
        ∀ f2, OutAction.send c f2 ∉ (deviceMessageHandler st isOpen d
            (InboundMsg.parsed (some "sensorData") [("temperature", Val.num 30)]) now).2) := by
  have hmsg : deviceMessageHandler st isOpen d
      (InboundMsg.parsed (some "sensorData") [("temperature", Val.num 30)]) now
      = ({ st with deviceStates := mergeStep st.deviceStates [("temperature", Val.num 30)] now },
         broadcastToWebClients st.webClients isOpen
           (Frame.sensorUpdate d [("temperature", Val.num 30)] now)) := by
    simp [deviceMessageHandler, mergeStep]
  rw [hmsg]
  refine ⟨?_, ?_, ?_, ?_⟩
  · rw [lookupKey_mergeStep_ne _ _ _ _ (by simp)]
    rfl
  · intro k hk1 hk2
    rw [lookupKey_mergeStep_ne _ _ _ _ hk2]
    have hla : lastAssigned [("temperature", Val.num 30)] k = none := by
      simp [lastAssigned, List.find?, decide_eq_false (fun e => hk1 (Eq.symm e))]
    rw [hla, Option.none_or]
  · intro cid c hmem hopenc
    exact broadcast_count st.webClients isOpen _ cid c hnodup hmem hopenc
  · intro cid c _ hclosed f2
    exact broadcast_not_sent_closed st.webClients isOpen _ f2 c hclosed

/-- Witness for C4: one device, one open dashboard. -/
theorem sensorData_temperature_update_witness :
    (([("webA", (7 : ConnId))] : List (String × ConnId)).map Prod.snd).Nodup
    ∧ lookupKey (deviceMessageHandler
        { iotDevices := [("device_001", 5)], webClients := [("webA", 7)],
          deviceStates := initialDeviceStates "t0",
          registeredDevices := initialRegisteredDevices }
        (fun _ => true) "device_001"
        (InboundMsg.parsed (some "sensorData") [("temperature", Val.num 30)]) "t1").1.deviceStates
        "temperature" = some (Val.num 30) :=
  ⟨by simp,
   (sensorData_temperature_update
     { iotDevices := [("device_001", 5)], webClients := [("webA", 7)],
       deviceStates := initialDeviceStates "t0",
       registeredDevices := initialRegisteredDevices }
     (fun _ => true) "device_001" "t1" (by simp)).1⟩

/-- Claim C5, counterexample: a successful `issueCommand("led", true)` on
a connected open device (the control endpoint even answers success) does
NOT refresh `lastUpdate` — it stays at its old value `"t0"` instead of the
write time `"t3"`, because lines 96-99 of `server.js` assign only
`deviceStates[command]` and never touch `deviceStates.lastUpdate`. -/
theorem issueCommand_lastUpdate_counterexample :
    (controlHandler
        { iotDevices := [("device_001", 5)], webClients := [],
          deviceStates := initialDeviceStates "t0",
          registeredDevices := initialRegisteredDevices }
        (fun _ => true) "device_001" "led" (Val.bool true) "t3").2.2
      = ControlResult.success "Command sent to device_001" "led" (Val.bool true)
    ∧ lookupKey (controlHandler
        { iotDevices := [("device_001", 5)], webClients := [],
          deviceStates := initialDeviceStates "t0",
          registeredDevices := initialRegisteredDevices }
        (fun _ => true) "device_001" "led" (Val.bool true) "t3").1.deviceStates "lastUpdate"
      = some (Val.str "t0")
    ∧ some (Val.str "t0") ≠ some (Val.str "t3") :=
  ⟨rfl, rfl, by simp⟩

/-- Claim C5 as amended: a `sensorData` merge refreshes the snapshot's
`lastUpdate` to the time of the write, but the `setField` performed by a
successful `issueCommand` does not: for any command name other than
`lastUpdate` itself, the snapshot's `lastUpdate` after the control
endpoint runs is exactly what it was before. -/
theorem writes_lastUpdate_amended (st : ServerState) (isOpen : ConnId → Bool)
    (d cmd : String) (v : Val) (now : String) (fields : List (String × Val))
    (hcmd : cmd ≠ "lastUpdate") :
    lookupKey (deviceMessageHandler st isOpen d
        (InboundMsg.parsed (some "sensorData") fields) now).1.deviceStates "lastUpdate"
      = some (Val.str now)
    ∧ lookupKey (controlHandler st isOpen d cmd v now).1.deviceStates "lastUpdate"
      = lookupKey st.deviceStates "lastUpdate" := by
  constructor
  · have hmsg : (deviceMessageHandler st isOpen d
        (InboundMsg.parsed (some "sensorData") fields) now).1.deviceStates
        = mergeStep st.deviceStates fields now := by
      simp [deviceMessageHandler, mergeStep]
    rw [hmsg, lookupKey_mergeStep_lastUpdate]
  · cases hws : lookupKey st.iotDevices d with
    | none => simp [controlHandler, hws]
    | some ws =>
      by_cases hopen : isOpen ws = true
      · by_cases hcm : hasKey st.deviceStates cmd = true
        · have : (controlHandler st isOpen d cmd v now).1.deviceStates
              = setKey st.deviceStates cmd v := by
            simp [controlHandler, hws, hopen, hcm]
          rw [this, lookupKey_setKey_ne _ _ _ _ (Ne.symm hcmd)]
        · simp [controlHandler, hws, hopen, hcm]
      · simp [controlHandler, hws, hopen]

/-- Witness for the amended C5 at a concrete input. -/
theorem writes_lastUpdate_amended_witness :
    ("led" : String) ≠ "lastUpdate"
    ∧ lookupKey (deviceMessageHandler (initialState "t0") (fun _ => true) "device_001"
        (InboundMsg.parsed (some "sensorData") [("temperature", Val.num 30)]) "t1").1.deviceStates
        "lastUpdate" = some (Val.str "t1") :=
  ⟨by simp,
   (writes_lastUpdate_amended (initialState "t0") (fun _ => true) "device_001" "led"
     (Val.bool true) "t1" [("temperature", Val.num 30)] (by simp)).1⟩

/-- Claim C3: after any nonempty sequence of `sensorData` merges applied
to a snapshot that has a `lastUpdate` key, the snapshot's keys are exactly
the union of the initial keys and all keys ever merged; every key other
than `lastUpdate` holds the most-recently merged value for it, or its
initial value if never merged; and `lastUpdate` holds the timestamp of the
last merge. -/
theorem merge_sequence_snapshot (m0 : List (String × Val))
    (merges : List (List (String × Val) × String)) (hne : merges ≠ [])
    (hlu : hasKey m0 "lastUpdate" = true) :
    (∀ k, hasKey (applyMerges m0 merges) k
        = (hasKey m0 k || (merges.flatMap (fun p => p.1)).any (fun p => p.1 = k)))
    ∧ (∀ k, k ≠ "lastUpdate" →
        lookupKey (applyMerges m0 merges) k
          = (lastAssigned (merges.flatMap (fun p => p.1)) k).or (lookupKey m0 k))
    ∧ lookupKey (applyMerges m0 merges) "lastUpdate"
        = some (Val.str (merges.getLast hne).2) :=
  ⟨fun k => hasKey_applyMerges m0 merges k hlu,
   fun k h => lookupKey_applyMerges_ne m0 merges k h,
   lookupKey_applyMerges_lastUpdate m0 merges hne⟩

/-- Witness for C3: two merges over the initial snapshot. -/
theorem merge_sequence_snapshot_witness :
    ([([("temperature", Val.num 30)], "t1"), ([("soil", Val.num 12)], "t2")]
        ≠ ([] : List (List (String × Val) × String)))
    ∧ hasKey (initialDeviceStates "t0") "lastUpdate" = true
    ∧ lookupKey (applyMerges (initialDeviceStates "t0")
        [([("temperature", Val.num 30)], "t1"), ([("soil", Val.num 12)], "t2")])
        "lastUpdate" = some (Val.str "t2") :=
  ⟨by simp, by rfl,
   (merge_sequence_snapshot (initialDeviceStates "t0")
     [([("temperature", Val.num 30)], "t1"), ([("soil", Val.num 12)], "t2")]
     (by simp) (by rfl)).2.2⟩

/-- Claim C6: for a device identity with a pre-seeded registry record, a
connect followed by a transport-reported close makes the record's `online`
flag go false→true→false with `lastSeen` set to the current time at both
transitions, and on the close a `deviceDisconnected` frame carrying the
identity and a timestamp is sent to every open dashboard connection; for
an identity with no matching record, connect and close leave the device
registry unchanged (a no-op, not an error). -/
theorem device_connect_disconnect (st : ServerState) (isOpen : ConnId → Bool)
    (d cid : String) (ws : ConnId) (t1 t2 : String) (hd : d ≠ "") :
    (∀ r, findDevice st.registeredDevices d = some r → r.online = false →
      findDevice ((connectionHandler st (some "device") (some d) ws cid t1).1).registeredDevices d
          = some { r with online := true, lastSeen := some t1 }
      ∧ findDevice ((deviceCloseHandler
            (connectionHandler st (some "device") (some d) ws cid t1).1 isOpen d t2).1).registeredDevices d
          = some { r with online := false, lastSeen := some t2 }
      ∧ (∀ cid2 c, (cid2, c) ∈ st.webClients → isOpen c = true →
          OutAction.send c (Frame.deviceDisconnected d t2)
            ∈ (deviceCloseHandler
                (connectionHandler st (some "device") (some d) ws cid t1).1 isOpen d t2).2))
    ∧ (findDevice st.registeredDevices d = none →
        ((connectionHandler st (some "device") (some d) ws cid t1).1).registeredDevices
            = st.registeredDevices
        ∧ ((deviceCloseHandler st isOpen d t2).1).registeredDevices = st.registeredDevices) := by
  have hconn : (connectionHandler st (some "device") (some d) ws cid t1).1
      = { st with iotDevices := setKey st.iotDevices d ws,
                  registeredDevices := markOnline st.registeredDevices d t1 } := by
    simp [connectionHandler, truthyParam, hd]
  constructor
  · intro r hr _
    have honline : findDevice (markOnline st.registeredDevices d t1) d
        = some { r with online := true, lastSeen := some t1 } := by
      rw [markOnline, findDevice_updateFirst st.registeredDevices d
        (fun d => { d with online := true, lastSeen := some t1 }) (fun _ => rfl), hr]
      rfl
    refine ⟨by rw [hconn]; exact honline, ?_, ?_⟩
    · show findDevice (markOffline
          (connectionHandler st (some "device") (some d) ws cid t1).1.registeredDevices d t2) d
        = _
      rw [hconn]
      show findDevice (markOffline (markOnline st.registeredDevices d t1) d t2) d = _
      rw [markOffline, findDevice_updateFirst (markOnline st.registeredDevices d t1) d
        (fun d => { d with online := false, lastSeen := some t2 }) (fun _ => rfl), honline]
      rfl
    · intro cid2 c hmem hopenc
      have hwc : (deviceCloseHandler
          (connectionHandler st (some "device") (some d) ws cid t1).1 isOpen d t2).2
          = broadcastToWebClients st.webClients isOpen (Frame.deviceDisconnected d t2) := by
        rw [hconn]; rfl
      rw [hwc]
      exact broadcast_mem st.webClients isOpen _ cid2 c hmem hopenc
  · intro hnone
    constructor
    · rw [hconn]
      exact updateFirst_no_match st.registeredDevices d _ hnone
    · exact updateFirst_no_match st.registeredDevices d _ hnone

/-- Witness for C6: the pre-seeded `device_001` record connects at `t1`
and disconnects at `t2`. -/
theorem device_connect_disconnect_witness :
    ("device_001" : String) ≠ ""
    ∧ findDevice (initialState "t0").registeredDevices "device_001"
        = some { id := "device_001", name := "Kitchen Sensor", type := "sensor",
                 location := "Kitchen", online := false, lastSeen := none }
    ∧ findDevice ((connectionHandler (initialState "t0") (some "device") (some "device_001")
          5 "c1" "t1").1).registeredDevices "device_001"
        = some { id := "device_001", name := "Kitchen Sensor", type := "sensor",
                 location := "Kitchen", online := true, lastSeen := some "t1" }
    ∧ findDevice ((deviceCloseHandler
          (connectionHandler (initialState "t0") (some "device") (some "device_001")
            5 "c1" "t1").1 (fun _ => true) "device_001" "t2").1).registeredDevices "device_001"
        = some { id := "device_001", name := "Kitchen Sensor", type := "sensor",
                 location := "Kitchen", online := false, lastSeen := some "t2" } := by
  have h := (device_connect_disconnect (initialState "t0") (fun _ => true)
      "device_001" "c1" 5 "t1" "t2" (by simp)).1
      { id := "device_001", name := "Kitchen Sensor", type := "sensor",
        location := "Kitchen", online := false, lastSeen := none } (by rfl) rfl
  exact ⟨by simp, by rfl, h.1, h.2.1⟩

/-- Claim C8: when a second device connection registers under an identity
that is already registered, the second registration replaces the first —
the device connection registry keeps at most one entry per identifier (key
uniqueness is preserved) — and a subsequent `issueCommand` on that
identity pushes its command frame to the second connection only: the
command-frame sends of its output are exactly the one push to the new
connection. -/
theorem device_reconnect_replaces (st : ServerState) (isOpen : ConnId → Bool)
    (d cid : String) (ws1 ws2 : ConnId) (t1 now cmd : String) (v : Val)
    (hd : d ≠ "") (_hprev : lookupKey st.iotDevices d = some ws1)
    (hopen : isOpen ws2 = true)
    (hnodup : (st.iotDevices.map Prod.fst).Nodup) :
    lookupKey ((connectionHandler st (some "device") (some d) ws2 cid t1).1).iotDevices d
        = some ws2
    ∧ ((((connectionHandler st (some "device") (some d) ws2 cid t1).1).iotDevices.map
          Prod.fst).Nodup)
    ∧ ((controlHandler (connectionHandler st (some "device") (some d) ws2 cid t1).1
          isOpen d cmd v now).2.1).filter isCommandSend
        = [OutAction.send ws2 (Frame.command cmd v now)] := by
  have hconn : (connectionHandler st (some "device") (some d) ws2 cid t1).1
      = { st with iotDevices := setKey st.iotDevices d ws2,
                  registeredDevices := markOnline st.registeredDevices d t1 } := by
    simp [connectionHandler, truthyParam, hd]
  rw [hconn]
  refine ⟨lookupKey_setKey_self _ _ _, keysNodup_setKey _ _ _ hnodup, ?_⟩
  have hctl : (controlHandler
      { st with iotDevices := setKey st.iotDevices d ws2,
                registeredDevices := markOnline st.registeredDevices d t1 }
      isOpen d cmd v now).2.1
      = OutAction.send ws2 (Frame.command cmd v now) ::
          broadcastToWebClients st.webClients isOpen (Frame.stateUpdate d cmd v now) := by
    simp [controlHandler, lookupKey_setKey_self, hopen]
  rw [hctl, List.filter_cons]
  have hhd : isCommandSend (OutAction.send ws2 (Frame.command cmd v now)) = true := rfl
  rw [if_pos hhd, List.filter_eq_nil_iff.mpr ?_]
  intro a hmem
  rcases broadcast_frames _ _ _ _ hmem with ⟨c, heq⟩
  rw [heq]
  simp [isCommandSend]

/-- Witness for C8: `device_001` reconnects with a new handle 6 while
handle 5 is still registered; the follow-up command goes to 6 only. -/
theorem device_reconnect_replaces_witness :
    ("device_001" : String) ≠ ""
    ∧ lookupKey [("device_001", (5 : ConnId))] "device_001" = some 5
    ∧ (fun _ => true : ConnId → Bool) 6 = true
    ∧ (([("device_001", (5 : ConnId))].map Prod.fst).Nodup)
    ∧ lookupKey ((connectionHandler
          { iotDevices := [("device_001", 5)], webClients := [],
            deviceStates := initialDeviceStates "t0",
            registeredDevices := initialRegisteredDevices }
          (some "device") (some "device_001") 6 "c1" "t1").1).iotDevices "device_001"
        = some 6 :=
  ⟨by simp, by rfl, rfl, by simp,
   (device_reconnect_replaces
     { iotDevices := [("device_001", 5)], webClients := [],
       deviceStates := initialDeviceStates "t0",
       registeredDevices := initialRegisteredDevices }
     (fun _ => true) "device_001" "c1" 5 6 "t1" "t2" "led" (Val.bool true)
     (by simp) (by rfl) rfl (by simp)).1⟩

end IotServer
